import Mathlib

/-!
Verification of the machine-service request handler (src/handler/api.ts).

The handler orchestrates three operations over a machine-state table and an
in-memory cache: Reserve (POST /machine/request), Get (GET /machine/{id})
and Start (POST /machine/{id}/start), each guarded by a token check.

The collaborator modules (database/cache, database/table, database/schema,
external/idp, external/smart-machine) are consumed by the handler as
capabilities; their contracts are given in the design document (§6) and are
modelled here accordingly: the table as a list of rows queried/updated by
machineId or locationId, the cache as an association list with get/put, the
identity provider and device controller as boolean-valued capabilities.
-/

namespace MachineService

/-- Modelled from the spec: status enum of database/schema
(`AVAILABLE → AWAITING_DROPOFF → RUNNING`, with `ERROR` side states). -/
inductive MachineStatus where
  | AVAILABLE
  | AWAITING_DROPOFF
  | RUNNING
  | ERROR
deriving DecidableEq

/-- Modelled from the spec: machine record of database/schema
(`machineId`, `locationId`, `status`, nullable `jobId`). -/
structure MachineStateDocument where
  machineId : String
  locationId : String
  status : MachineStatus
  jobId : Option String
deriving DecidableEq

/-- Response status codes used by the handler (model of `HttpResponseCode`). -/
inductive HttpResponseCode where
  | OK
  | NOT_FOUND
  | BAD_REQUEST
  | UNAUTHORIZED
  | INTERNAL_SERVER_ERROR
  | HARDWARE_ERROR
deriving DecidableEq

/-- Response envelope (model of `MachineResponseModel`): a status code and an
optional machine record (`undefined`/`null` both become `none`). -/
structure MachineResponseModel where
  statusCode : HttpResponseCode
  machine : Option MachineStateDocument
deriving DecidableEq

/-- The distinguishable failure thrown by `checkToken` (the stringified
`{statusCode, message}` object). -/
structure AuthError where
  statusCode : HttpResponseCode
  message : String
deriving DecidableEq

/-- Request envelope (model of `RequestModel`): token, method, path and the
reserve-specific fields. The machine id for Get/Start is extracted from the
path by the router, not carried in the request. -/
structure RequestModel where
  token : String
  method : String
  path : String
  locationId : String
  jobId : String
deriving DecidableEq

/-- Modelled from the spec: the authoritative machine table
(database/table) as its list of rows, in stable iteration order. -/
abbrev Store := List MachineStateDocument

/-- Modelled from the spec: the in-memory cache (database/cache) as an
association list keyed by machine id; `put` prepends, `get` returns the most
recent binding. -/
abbrev Cache := List (String × MachineStateDocument)

/-- Modelled from the spec: the external capabilities — identity provider
`validateToken(token) -> bool` and device controller
`startCycle(id) -> ok | fails` (`startCycleOk id = false` means the call
throws). -/
structure Caps where
  validateToken : String → Bool
  startCycleOk : String → Bool

/-- The mutable world the handler acts on: the Store and the Cache. -/
structure SysState where
  store : Store
  cache : Cache
deriving DecidableEq

/-- Modelled from the spec: cache lookup `get(id) -> record|absent`. -/
def cacheGet (c : Cache) (machineId : String) : Option MachineStateDocument :=
  (c.find? (fun p => p.1 == machineId)).map Prod.snd

/-- Modelled from the spec: cache update `put(id, record)`. -/
def cachePut (c : Cache) (machineId : String) (d : MachineStateDocument) : Cache :=
  (machineId, d) :: c

/-- Modelled from the spec: `listMachinesAtLocation(locationId)` — the rows
whose `locationId` matches, in table order. -/
def listMachinesAtLocation (s : Store) (locationId : String) : List MachineStateDocument :=
  s.filter (fun m => m.locationId == locationId)

/-- Modelled from the spec: `getMachine(id) -> MachineRecord|absent`. -/
def getMachine (s : Store) (machineId : String) : Option MachineStateDocument :=
  s.find? (fun m => m.machineId == machineId)

/-- Modelled from the spec: `updateMachineStatus(id, status)`. -/
def updateMachineStatus (s : Store) (machineId : String) (status : MachineStatus) : Store :=
  s.map (fun m => if m.machineId == machineId then { m with status := status } else m)

/-- Modelled from the spec: `updateMachineJobId(id, jobId)`. -/
def updateMachineJobId (s : Store) (machineId : String) (jobId : String) : Store :=
  s.map (fun m => if m.machineId == machineId then { m with jobId := some jobId } else m)

/-- Embedding of `ApiHandler.handleRequestMachine` (api.ts lines 50–69). -/
def handleRequestMachine (st : SysState) (locationId jobId : String) :
    MachineResponseModel × SysState :=
  let machines := listMachinesAtLocation st.store locationId
  match machines.find? (fun m => m.status == MachineStatus.AVAILABLE) with
  | none => ({ statusCode := .NOT_FOUND, machine := none }, st)
  | some available =>
    let store1 := updateMachineStatus st.store available.machineId .AWAITING_DROPOFF
    let store2 := updateMachineJobId store1 available.machineId jobId
    match getMachine store2 available.machineId with
    | some updatedMachine =>
      ({ statusCode := .OK, machine := some updatedMachine },
       { store := store2, cache := cachePut st.cache updatedMachine.machineId updatedMachine })
    | none =>
      ({ statusCode := .NOT_FOUND, machine := none }, { store := store2, cache := st.cache })

/-- Embedding of `ApiHandler.handleGetMachine` (api.ts lines 74–84). -/
def handleGetMachine (st : SysState) (machineId : String) :
    MachineResponseModel × SysState :=
  match cacheGet st.cache machineId with
  | some machine => ({ statusCode := .OK, machine := some machine }, st)
  | none =>
    match getMachine st.store machineId with
    | some machine =>
      ({ statusCode := .OK, machine := some machine },
       { store := st.store, cache := cachePut st.cache machine.machineId machine })
    | none => ({ statusCode := .NOT_FOUND, machine := none }, st)

/-- The cache-then-store fallback of `handleStartMachine` (api.ts line 90:
`this.cache.get(id) || this.table.getMachine(id)`). -/
def startResolve (st : SysState) (machineId : String) : Option MachineStateDocument :=
  (cacheGet st.cache machineId).orElse (fun _ => getMachine st.store machineId)

/-- Embedding of `ApiHandler.handleStartMachine` (api.ts lines 89–119); the
`try/catch` around `smc.startCycle` becomes a case split on
`caps.startCycleOk`. -/
def handleStartMachine (caps : Caps) (st : SysState) (machineId : String) :
    MachineResponseModel × SysState :=
  match startResolve st machineId with
  | none => ({ statusCode := .NOT_FOUND, machine := none }, st)
  | some machine =>
    if machine.status != MachineStatus.AWAITING_DROPOFF then
      ({ statusCode := .BAD_REQUEST, machine := some machine }, st)
    else if caps.startCycleOk machine.machineId then
      let store1 := updateMachineStatus st.store machine.machineId .RUNNING
      match getMachine store1 machine.machineId with
      | some updatedMachine =>
        ({ statusCode := .OK, machine := some updatedMachine },
         { store := store1, cache := cachePut st.cache updatedMachine.machineId updatedMachine })
      | none =>
        ({ statusCode := .NOT_FOUND, machine := none }, { store := store1, cache := st.cache })
    else
      let store1 := updateMachineStatus st.store machine.machineId .ERROR
      match getMachine store1 machine.machineId with
      | some errorMachine =>
        ({ statusCode := .HARDWARE_ERROR, machine := some errorMachine },
         { store := store1, cache := cachePut st.cache errorMachine.machineId errorMachine })
      | none =>
        ({ statusCode := .NOT_FOUND, machine := none }, { store := store1, cache := st.cache })

/-- Embedding of `ApiHandler.checkToken` (api.ts lines 36–45): throws the
`AuthError` when the token is empty or the identity provider rejects it. -/
def checkToken (caps : Caps) (token : String) : Except AuthError Unit :=
  if token == "" || !caps.validateToken token then
    .error { statusCode := .UNAUTHORIZED, message := "Invalid token" }
  else
    .ok ()

/-- Character class `[a-zA-Z0-9-]` of the router's machine-id patterns. -/
def isIdChar (c : Char) : Bool :=
  c.isAlpha || c.isDigit || c == '-'

/-- Match of the router's pattern `^\/machine\/([a-zA-Z0-9-]+)$`
(api.ts line 136), over the path's character list. -/
def matchGetPath (path : String) : Option String :=
  if "/machine/".data.isPrefixOf path.data then
    let rest := path.data.drop 9
    if !rest.isEmpty && rest.all isIdChar then some (String.mk rest) else none
  else none

/-- Match of the router's pattern `^\/machine\/([a-zA-Z0-9-]+)\/start$`
(api.ts line 144), over the path's character list. -/
def matchStartPath (path : String) : Option String :=
  if "/machine/".data.isPrefixOf path.data then
    let rest := path.data.drop 9
    if "/start".data.isSuffixOf rest then
      let mid := rest.take (rest.length - 6)
      if !mid.isEmpty && mid.all isIdChar then some (String.mk mid) else none
    else none
  else none

/-- Embedding of `ApiHandler.handle` (api.ts lines 126–153): token check
first (its failure propagates as an `AuthError`, leaving the state
untouched), then routing in source order. -/
def handle (caps : Caps) (st : SysState) (req : RequestModel) :
    Except AuthError MachineResponseModel × SysState :=
  match checkToken caps req.token with
  | .error e => (.error e, st)
  | .ok _ =>
    if req.method == "POST" && req.path == "/machine/request" then
      let r := handleRequestMachine st req.locationId req.jobId
      (.ok r.1, r.2)
    else match req.method == "GET", matchGetPath req.path with
    | true, some mid =>
      let r := handleGetMachine st mid
      (.ok r.1, r.2)
    | _, _ =>
      match req.method == "POST", matchStartPath req.path with
      | true, some mid =>
        let r := handleStartMachine caps st mid
        (.ok r.1, r.2)
      | _, _ =>
        (.ok { statusCode := .INTERNAL_SERVER_ERROR, machine := none }, st)

/-- Well-formedness of the cache: every entry is keyed by the id of the
record it holds. Every `put` the handler performs uses
`record.machineId` as the key, so the invariant is preserved by all three
operations. -/
def CacheWF (c : Cache) : Prop :=
  ∀ k m, cacheGet c k = some m → m.machineId = k

/-! Helper lemmas about the store and cache primitives. -/

/-- A `find?` over a mapped list where the map does not change the predicate's
verdict finds the image of what the plain `find?` finds. -/
lemma find?_map_of_comm {α : Type _} (f : α → α) (p : α → Bool)
    (hf : ∀ a, p (f a) = p a) (l : List α) :
    (l.map f).find? p = (l.find? p).map f := by
  induction l with
  | nil => rfl
  | cons a t ih =>
    cases h : p a with
    | true =>
      rw [List.map_cons, List.find?_cons_of_pos _ (by rw [hf]; exact h),
        List.find?_cons_of_pos _ h]
      rfl
    | false =>
      rw [List.map_cons, List.find?_cons_of_neg _ (by rw [hf, h]; simp),
        List.find?_cons_of_neg _ (by rw [h]; simp), ih]

/-- Generic single-id store update: reading back the updated id yields the
updated record. -/
lemma getMachine_update_self (s : Store) (machineId : String)
    (g : MachineStateDocument → MachineStateDocument)
    (hg : ∀ m, (g m).machineId = m.machineId) :
    getMachine (s.map (fun m => if m.machineId == machineId then g m else m)) machineId =
      (getMachine s machineId).map g := by
  unfold getMachine
  rw [find?_map_of_comm _ _
    (fun a => by cases h : a.machineId == machineId <;> simp [h, hg])]
  cases hfind : s.find? (fun m => m.machineId == machineId) with
  | none => rfl
  | some m =>
    have hp := List.find?_some hfind
    have hm : m.machineId = machineId := eq_of_beq hp
    simp [hm]

/-- Generic single-id store update: reading any other id is unaffected. -/
lemma getMachine_update_ne (s : Store) (machineId other : String)
    (g : MachineStateDocument → MachineStateDocument)
    (hg : ∀ m, (g m).machineId = m.machineId)
    (h : other ≠ machineId) :
    getMachine (s.map (fun m => if m.machineId == machineId then g m else m)) other =
      getMachine s other := by
  unfold getMachine
  rw [find?_map_of_comm _ _
    (fun a => by cases hc : a.machineId == machineId <;> simp [hc, hg])]
  cases hfind : s.find? (fun m => m.machineId == other) with
  | none => rfl
  | some m =>
    have hp := List.find?_some hfind
    have hm : m.machineId = other := eq_of_beq hp
    simp [hm, h]

lemma getMachine_updateMachineStatus_self (s : Store) (machineId : String) (st : MachineStatus) :
    getMachine (updateMachineStatus s machineId st) machineId =
      (getMachine s machineId).map (fun m => { m with status := st }) :=
  getMachine_update_self s machineId _ (fun _ => rfl)

lemma getMachine_updateMachineStatus_ne (s : Store) (machineId other : String)
    (st : MachineStatus) (h : other ≠ machineId) :
    getMachine (updateMachineStatus s machineId st) other = getMachine s other :=
  getMachine_update_ne s machineId other _ (fun _ => rfl) h

lemma getMachine_updateMachineJobId_self (s : Store) (machineId jobId : String) :
    getMachine (updateMachineJobId s machineId jobId) machineId =
      (getMachine s machineId).map (fun m => { m with jobId := some jobId }) :=
  getMachine_update_self s machineId _ (fun _ => rfl)

lemma getMachine_updateMachineJobId_ne (s : Store) (machineId jobId other : String)
    (h : other ≠ machineId) :
    getMachine (updateMachineJobId s machineId jobId) other = getMachine s other :=
  getMachine_update_ne s machineId other _ (fun _ => rfl) h

/-- A record found by id in the store carries that id. -/
lemma getMachine_some_machineId {s : Store} {machineId : String} {m : MachineStateDocument}
    (h : getMachine s machineId = some m) : m.machineId = machineId := by
  unfold getMachine at h
  have hp := List.find?_some h
  exact eq_of_beq hp

/-- A row of the store is found when queried by its own id (possibly an
earlier duplicate is returned, but the lookup succeeds). -/
lemma getMachine_isSome_of_mem {s : Store} {m : MachineStateDocument} (hm : m ∈ s) :
    (getMachine s m.machineId).isSome := by
  unfold getMachine
  rw [List.find?_isSome]
  exact ⟨m, hm, by simp⟩

lemma cacheGet_cachePut_self (c : Cache) (k : String) (d : MachineStateDocument) :
    cacheGet (cachePut c k d) k = some d := by
  unfold cacheGet cachePut
  rw [List.find?_cons_of_pos _ (by simp)]
  rfl

lemma cacheGet_cachePut_ne (c : Cache) (k other : String) (d : MachineStateDocument)
    (h : other ≠ k) :
    cacheGet (cachePut c k d) other = cacheGet c other := by
  unfold cacheGet cachePut
  rw [List.find?_cons_of_neg _ (by simp; exact fun hc => h hc.symm)]

/-- The machine selected by Reserve is a row of the store. -/
lemma reserve_selected_mem {s : Store} {loc : String} {a : MachineStateDocument}
    (h : (listMachinesAtLocation s loc).find?
      (fun m => m.status == MachineStatus.AVAILABLE) = some a) :
    a ∈ s :=
  List.mem_of_mem_filter (List.mem_of_find?_eq_some h)

lemma startResolve_of_cacheHit {st : SysState} {machineId : String} {m : MachineStateDocument}
    (h : cacheGet st.cache machineId = some m) :
    startResolve st machineId = some m := by
  unfold startResolve
  rw [h]
  rfl

lemma startResolve_of_cacheMiss {st : SysState} {machineId : String}
    (hc : cacheGet st.cache machineId = none) :
    startResolve st machineId = getMachine st.store machineId := by
  unfold startResolve
  rw [hc]
  rfl

/-- Under a well-formed cache, whatever record Start resolves for an id
carries that id. -/
lemma startResolve_machineId {st : SysState} {machineId : String} {m : MachineStateDocument}
    (hwf : CacheWF st.cache) (h : startResolve st machineId = some m) :
    m.machineId = machineId := by
  unfold startResolve at h
  cases hc : cacheGet st.cache machineId with
  | some mm =>
    rw [hc] at h
    have hmm : (some mm : Option MachineStateDocument) = some m := h
    have hmm' : mm = m := by injection hmm
    exact hmm' ▸ hwf machineId mm hc
  | none =>
    rw [hc] at h
    have hg : getMachine st.store machineId = some m := h
    exact getMachine_some_machineId hg

/-! Claim theorems. -/

/-- C3: every request whose token is empty or rejected by the identity
provider fails with the distinguishable `Unauthorized` failure carrying
status `UNAUTHORIZED` and message "Invalid token" (an `AuthError`, not a
normal response envelope), and the Store and Cache are left untouched for
all three operations. -/
theorem C3_invalid_token_rejected (caps : Caps) (st : SysState) (req : RequestModel)
    (h : req.token = "" ∨ caps.validateToken req.token = false) :
    handle caps st req =
      (.error { statusCode := .UNAUTHORIZED, message := "Invalid token" }, st) := by
  unfold handle checkToken
  rcases h with h | h
  · simp [h]
  · simp [h]

/-- Witness for C3 at a concrete request with an empty token. -/
theorem C3_invalid_token_rejected_witness :
    handle ⟨fun _ => true, fun _ => true⟩ ⟨[], []⟩
        { token := "", method := "GET", path := "/machine/m1", locationId := "", jobId := "" } =
      (.error { statusCode := .UNAUTHORIZED, message := "Invalid token" }, ⟨[], []⟩) :=
  C3_invalid_token_rejected ⟨fun _ => true, fun _ => true⟩ ⟨[], []⟩
    { token := "", method := "GET", path := "/machine/m1", locationId := "", jobId := "" }
    (Or.inl rfl)

/-- C5: a Start call whose cache-then-store resolution yields a record whose
status is not `AWAITING_DROPOFF` returns `BadRequest` with that record,
mutates neither Store nor Cache, and its outcome is independent of the
device-controller capability (the Device Controller is not invoked). -/
theorem C5_start_wrong_state (caps caps' : Caps) (st : SysState) (machineId : String)
    (m : MachineStateDocument)
    (hres : startResolve st machineId = some m)
    (hstat : m.status ≠ MachineStatus.AWAITING_DROPOFF) :
    handleStartMachine caps st machineId =
      ({ statusCode := .BAD_REQUEST, machine := some m }, st) ∧
    handleStartMachine caps st machineId = handleStartMachine caps' st machineId := by
  have h1 : ∀ c : Caps, handleStartMachine c st machineId =
      ({ statusCode := .BAD_REQUEST, machine := some m }, st) := by
    intro c
    unfold handleStartMachine
    rw [hres]
    simp [hstat]
  exact ⟨h1 caps, (h1 caps).trans (h1 caps').symm⟩

/-- Witness for C5 at a concrete `RUNNING` machine resolved from the store. -/
theorem C5_start_wrong_state_witness :
    handleStartMachine ⟨fun _ => true, fun _ => true⟩
        ⟨[⟨"m1", "loc1", .RUNNING, some "j1"⟩], []⟩ "m1" =
      ({ statusCode := .BAD_REQUEST, machine := some ⟨"m1", "loc1", .RUNNING, some "j1"⟩ },
       ⟨[⟨"m1", "loc1", .RUNNING, some "j1"⟩], []⟩) :=
  (C5_start_wrong_state ⟨fun _ => true, fun _ => true⟩ ⟨fun _ => false, fun _ => false⟩
    ⟨[⟨"m1", "loc1", .RUNNING, some "j1"⟩], []⟩ "m1" ⟨"m1", "loc1", .RUNNING, some "j1"⟩
    (by decide) (by decide)).1

/-- C9: when the Cache holds an entry for the requested machine id, that
cached snapshot alone decides the Start guard: a cached status other than
`AWAITING_DROPOFF` yields `BadRequest` with the cached record whatever the
Store holds for that id, and a cached `AWAITING_DROPOFF` passes the guard
(never `BadRequest`) whatever the Store holds. -/
theorem C9_start_guard_uses_cache (caps : Caps) (c : Cache) (machineId : String)
    (m : MachineStateDocument)
    (hc : cacheGet c machineId = some m) :
    (m.status ≠ MachineStatus.AWAITING_DROPOFF →
      ∀ s : Store,
        handleStartMachine caps ⟨s, c⟩ machineId =
          ({ statusCode := .BAD_REQUEST, machine := some m }, ⟨s, c⟩)) ∧
    (m.status = MachineStatus.AWAITING_DROPOFF →
      ∀ s : Store,
        (handleStartMachine caps ⟨s, c⟩ machineId).1.statusCode ≠
          HttpResponseCode.BAD_REQUEST) := by
  constructor
  · intro hstat s
    have hres : startResolve ⟨s, c⟩ machineId = some m := startResolve_of_cacheHit hc
    unfold handleStartMachine
    rw [hres]
    simp [hstat]
  · intro hstat s
    have hres : startResolve ⟨s, c⟩ machineId = some m := startResolve_of_cacheHit hc
    unfold handleStartMachine
    rw [hres]
    simp only [hstat]
    simp only [bne_self_eq_false, Bool.false_eq_true, if_false]
    by_cases hok : caps.startCycleOk m.machineId
    · simp only [hok, if_true]
      cases hre : getMachine (updateMachineStatus s m.machineId MachineStatus.RUNNING)
          m.machineId <;> simp [hre]
    · simp only [hok, if_false]
      cases hre : getMachine (updateMachineStatus s m.machineId MachineStatus.ERROR)
          m.machineId <;> simp [hre]

/-- Witness for C9: cached `RUNNING` snapshot for `m1` while the Store holds
`m1` in `AWAITING_DROPOFF` — the call still returns `BadRequest` with the
cached record and leaves both stores untouched. -/
theorem C9_start_guard_uses_cache_witness :
    handleStartMachine ⟨fun _ => true, fun _ => true⟩
        ⟨[⟨"m1", "loc1", .AWAITING_DROPOFF, some "j1"⟩],
         [("m1", ⟨"m1", "loc1", .RUNNING, some "j1"⟩)]⟩ "m1" =
      ({ statusCode := .BAD_REQUEST, machine := some ⟨"m1", "loc1", .RUNNING, some "j1"⟩ },
       ⟨[⟨"m1", "loc1", .AWAITING_DROPOFF, some "j1"⟩],
        [("m1", ⟨"m1", "loc1", .RUNNING, some "j1"⟩)]⟩) :=
  (C9_start_guard_uses_cache ⟨fun _ => true, fun _ => true⟩
    [("m1", ⟨"m1", "loc1", .RUNNING, some "j1"⟩)] "m1"
    ⟨"m1", "loc1", .RUNNING, some "j1"⟩ (by decide)).1 (by decide)
    [⟨"m1", "loc1", .AWAITING_DROPOFF, some "j1"⟩]

/-- C6: Get is cache-first — a cache hit answers `OK` with the cached
record without touching anything and independently of the Store's content;
on a cache miss a Store hit is returned with `OK` and written into the
Cache (read-through fill, so the entry is then found under the requested
id); when neither holds the record the result is `NotFound` with no
machine and the state is unchanged. -/
theorem C6_get_cache_first (s : Store) (c : Cache) (machineId : String) :
    (∀ m, cacheGet c machineId = some m →
      ∀ s' : Store,
        handleGetMachine ⟨s', c⟩ machineId =
          ({ statusCode := .OK, machine := some m }, ⟨s', c⟩)) ∧
    (cacheGet c machineId = none →
      (∀ m, getMachine s machineId = some m →
        handleGetMachine ⟨s, c⟩ machineId =
          ({ statusCode := .OK, machine := some m }, ⟨s, cachePut c m.machineId m⟩) ∧
        cacheGet (cachePut c m.machineId m) machineId = some m) ∧
      (getMachine s machineId = none →
        handleGetMachine ⟨s, c⟩ machineId =
          ({ statusCode := .NOT_FOUND, machine := none }, ⟨s, c⟩))) := by
  constructor
  · intro m hm s'
    unfold handleGetMachine
    rw [show cacheGet (SysState.mk s' c).cache machineId = some m from hm]
  · intro hmiss
    constructor
    · intro m hm
      constructor
      · unfold handleGetMachine
        rw [show cacheGet (SysState.mk s c).cache machineId = none from hmiss,
          show getMachine (SysState.mk s c).store machineId = some m from hm]
      · have hid : m.machineId = machineId := getMachine_some_machineId hm
        rw [hid]
        exact cacheGet_cachePut_self c machineId m
    · intro hnone
      unfold handleGetMachine
      rw [show cacheGet (SysState.mk s c).cache machineId = none from hmiss,
        show getMachine (SysState.mk s c).store machineId = none from hnone]

/-- Witness for C6: a cache miss followed by a Store hit fills the cache and
returns the Store record. -/
theorem C6_get_cache_first_witness :
    handleGetMachine ⟨[⟨"m1", "loc1", .AVAILABLE, none⟩], []⟩ "m1" =
      ({ statusCode := .OK, machine := some ⟨"m1", "loc1", .AVAILABLE, none⟩ },
       ⟨[⟨"m1", "loc1", .AVAILABLE, none⟩],
        [("m1", ⟨"m1", "loc1", .AVAILABLE, none⟩)]⟩) :=
  (((C6_get_cache_first [⟨"m1", "loc1", .AVAILABLE, none⟩] [] "m1").2 (by decide)).1
    ⟨"m1", "loc1", .AVAILABLE, none⟩ (by decide)).1

/-- C1: a Start call on a machine resolved in `AWAITING_DROPOFF` whose
device start-cycle fails performs the compensating write — the post-call
Store holds status `ERROR` for that id (never still `AWAITING_DROPOFF`) —
and on a successful re-read the Cache entry for that id becomes the
error-state record and the result is `HardwareError` with it attached; if
the post-compensation re-read finds nothing the result is `NotFound` with
no machine. -/
theorem C1_start_device_failure (caps : Caps) (st : SysState) (machineId : String)
    (m : MachineStateDocument)
    (hres : startResolve st machineId = some m)
    (hstat : m.status = MachineStatus.AWAITING_DROPOFF)
    (hid : m.machineId = machineId)
    (hfail : caps.startCycleOk machineId = false) :
    (handleStartMachine caps st machineId).2.store =
      updateMachineStatus st.store machineId MachineStatus.ERROR ∧
    (∀ d, getMachine (handleStartMachine caps st machineId).2.store machineId = some d →
      d.status = MachineStatus.ERROR ∧
      cacheGet (handleStartMachine caps st machineId).2.cache machineId = some d ∧
      (handleStartMachine caps st machineId).1 =
        { statusCode := .HARDWARE_ERROR, machine := some d }) ∧
    (getMachine (handleStartMachine caps st machineId).2.store machineId = none →
      (handleStartMachine caps st machineId).1 =
        { statusCode := .NOT_FOUND, machine := none }) := by
  have hrun : handleStartMachine caps st machineId =
      match getMachine (updateMachineStatus st.store machineId MachineStatus.ERROR) machineId with
      | some errorMachine =>
        ({ statusCode := .HARDWARE_ERROR, machine := some errorMachine },
         { store := updateMachineStatus st.store machineId MachineStatus.ERROR,
           cache := cachePut st.cache errorMachine.machineId errorMachine })
      | none =>
        ({ statusCode := .NOT_FOUND, machine := none },
         { store := updateMachineStatus st.store machineId MachineStatus.ERROR,
           cache := st.cache }) := by
    unfold handleStartMachine
    rw [hres]
    simp only [hstat, bne_self_eq_false, Bool.false_eq_true, if_false, hid, hfail]
  cases hre : getMachine (updateMachineStatus st.store machineId MachineStatus.ERROR)
      machineId with
  | some errM =>
    rw [hrun]
    simp only [hre]
    have hstatus : errM.status = MachineStatus.ERROR := by
      rw [getMachine_updateMachineStatus_self] at hre
      cases h0 : getMachine st.store machineId with
      | none => rw [h0] at hre; exact Option.noConfusion hre
      | some m0 =>
        rw [h0] at hre
        injection hre with h
        rw [← h]
    have hpid : errM.machineId = machineId := getMachine_some_machineId hre
    refine ⟨trivial, ?_, fun hnone => Option.noConfusion hnone⟩
    intro d hd
    injection hd with hd
    subst hd
    refine ⟨hstatus, ?_, rfl⟩
    rw [hpid]
    exact cacheGet_cachePut_self st.cache machineId errM
  | none =>
    rw [hrun]
    simp only [hre]
    exact ⟨trivial, fun d hd => Option.noConfusion hd, fun _ => trivial⟩

/-- Witness for C1: one `AWAITING_DROPOFF` machine, failing device — the
call yields `HardwareError` with the `ERROR`-state record. -/
theorem C1_start_device_failure_witness :
    (handleStartMachine ⟨fun _ => true, fun _ => false⟩
        ⟨[⟨"m1", "loc1", .AWAITING_DROPOFF, some "j1"⟩], []⟩ "m1").1 =
      { statusCode := .HARDWARE_ERROR, machine := some ⟨"m1", "loc1", .ERROR, some "j1"⟩ } :=
  ((C1_start_device_failure ⟨fun _ => true, fun _ => false⟩
    ⟨[⟨"m1", "loc1", .AWAITING_DROPOFF, some "j1"⟩], []⟩ "m1"
    ⟨"m1", "loc1", .AWAITING_DROPOFF, some "j1"⟩
    (by decide) rfl rfl rfl).2.1
    ⟨"m1", "loc1", .ERROR, some "j1"⟩ (by decide)).2.2

/-- C4: a Start call on a machine resolved in `AWAITING_DROPOFF` whose
device start-cycle succeeds updates the Store status for that id to
`RUNNING`; on a successful re-read the Cache entry for that id becomes the
re-read record and the result is `OK` with it; if the re-read finds
nothing the result is `NotFound` with no machine. -/
theorem C4_start_success (caps : Caps) (st : SysState) (machineId : String)
    (m : MachineStateDocument)
    (hres : startResolve st machineId = some m)
    (hstat : m.status = MachineStatus.AWAITING_DROPOFF)
    (hid : m.machineId = machineId)
    (hok : caps.startCycleOk machineId = true) :
    (handleStartMachine caps st machineId).2.store =
      updateMachineStatus st.store machineId MachineStatus.RUNNING ∧
    (∀ d, getMachine (handleStartMachine caps st machineId).2.store machineId = some d →
      d.status = MachineStatus.RUNNING ∧
      cacheGet (handleStartMachine caps st machineId).2.cache machineId = some d ∧
      (handleStartMachine caps st machineId).1 =
        { statusCode := .OK, machine := some d }) ∧
    (getMachine (handleStartMachine caps st machineId).2.store machineId = none →
      (handleStartMachine caps st machineId).1 =
        { statusCode := .NOT_FOUND, machine := none }) := by
  have hrun : handleStartMachine caps st machineId =
      match getMachine (updateMachineStatus st.store machineId MachineStatus.RUNNING) machineId with
      | some updatedMachine =>
        ({ statusCode := .OK, machine := some updatedMachine },
         { store := updateMachineStatus st.store machineId MachineStatus.RUNNING,
           cache := cachePut st.cache updatedMachine.machineId updatedMachine })
      | none =>
        ({ statusCode := .NOT_FOUND, machine := none },
         { store := updateMachineStatus st.store machineId MachineStatus.RUNNING,
           cache := st.cache }) := by
    unfold handleStartMachine
    rw [hres]
    simp only [hstat, bne_self_eq_false, Bool.false_eq_true, if_false, hid, hok, if_true]
  cases hre : getMachine (updateMachineStatus st.store machineId MachineStatus.RUNNING)
      machineId with
  | some updM =>
    rw [hrun]
    simp only [hre]
    have hstatus : updM.status = MachineStatus.RUNNING := by
      rw [getMachine_updateMachineStatus_self] at hre
      cases h0 : getMachine st.store machineId with
      | none => rw [h0] at hre; exact Option.noConfusion hre
      | some m0 =>
        rw [h0] at hre
        injection hre with h
        rw [← h]
    have hpid : updM.machineId = machineId := getMachine_some_machineId hre
    refine ⟨trivial, ?_, fun hnone => Option.noConfusion hnone⟩
    intro d hd
    injection hd with hd
    subst hd
    refine ⟨hstatus, ?_, rfl⟩
    rw [hpid]
    exact cacheGet_cachePut_self st.cache machineId updM
  | none =>
    rw [hrun]
    simp only [hre]
    exact ⟨trivial, fun d hd => Option.noConfusion hd, fun _ => trivial⟩

/-- Witness for C4: one `AWAITING_DROPOFF` machine, succeeding device — the
call yields `OK` with the `RUNNING`-state record. -/
theorem C4_start_success_witness :
    (handleStartMachine ⟨fun _ => true, fun _ => true⟩
        ⟨[⟨"m1", "loc1", .AWAITING_DROPOFF, some "j1"⟩], []⟩ "m1").1 =
      { statusCode := .OK, machine := some ⟨"m1", "loc1", .RUNNING, some "j1"⟩ } :=
  ((C4_start_success ⟨fun _ => true, fun _ => true⟩
    ⟨[⟨"m1", "loc1", .AWAITING_DROPOFF, some "j1"⟩], []⟩ "m1"
    ⟨"m1", "loc1", .AWAITING_DROPOFF, some "j1"⟩
    (by decide) rfl rfl rfl).2.1
    ⟨"m1", "loc1", .RUNNING, some "j1"⟩ (by decide)).2.2

/-- C2: when the listing at the requested location contains an `AVAILABLE`
machine, the first one in listing order (the `find?` result — first match
wins, no randomization) is reserved: afterwards the Store record for that
machine id has status `AWAITING_DROPOFF` and the requested job bound, the
Cache entry for that id equals the post-mutation Store record, and the
result is `OK` with that record. -/
theorem C2_reserve_success (st : SysState) (locationId jobId : String)
    (a : MachineStateDocument)
    (hfind : (listMachinesAtLocation st.store locationId).find?
      (fun m => m.status == MachineStatus.AVAILABLE) = some a) :
    ∃ u : MachineStateDocument,
      (handleRequestMachine st locationId jobId).1 =
        { statusCode := .OK, machine := some u } ∧
      u.machineId = a.machineId ∧
      u.status = MachineStatus.AWAITING_DROPOFF ∧
      u.jobId = some jobId ∧
      getMachine (handleRequestMachine st locationId jobId).2.store a.machineId = some u ∧
      cacheGet (handleRequestMachine st locationId jobId).2.cache a.machineId = some u := by
  have hmem : a ∈ st.store := reserve_selected_mem hfind
  have hsome : (getMachine st.store a.machineId).isSome := getMachine_isSome_of_mem hmem
  obtain ⟨m0, h0⟩ := Option.isSome_iff_exists.mp hsome
  have hpid : m0.machineId = a.machineId := getMachine_some_machineId h0
  have h1 : getMachine (updateMachineStatus st.store a.machineId MachineStatus.AWAITING_DROPOFF)
      a.machineId = some { m0 with status := MachineStatus.AWAITING_DROPOFF } := by
    rw [getMachine_updateMachineStatus_self, h0]
    rfl
  have h2 : getMachine (updateMachineJobId
      (updateMachineStatus st.store a.machineId MachineStatus.AWAITING_DROPOFF)
      a.machineId jobId) a.machineId =
      some { m0 with status := MachineStatus.AWAITING_DROPOFF, jobId := some jobId } := by
    rw [getMachine_updateMachineJobId_self, h1]
    rfl
  have hrun : handleRequestMachine st locationId jobId =
      ({ statusCode := .OK,
         machine := some { m0 with status := MachineStatus.AWAITING_DROPOFF, jobId := some jobId } },
       { store := updateMachineJobId
           (updateMachineStatus st.store a.machineId MachineStatus.AWAITING_DROPOFF)
           a.machineId jobId,
         cache := cachePut st.cache m0.machineId
           { m0 with status := MachineStatus.AWAITING_DROPOFF, jobId := some jobId } }) := by
    unfold handleRequestMachine
    simp only [hfind, h2]
  refine ⟨{ m0 with status := MachineStatus.AWAITING_DROPOFF, jobId := some jobId },
    ?_, hpid, rfl, rfl, ?_, ?_⟩
  · rw [hrun]
  · rw [hrun]
    exact h2
  · rw [hrun]
    have : cacheGet (cachePut st.cache m0.machineId
        { m0 with status := MachineStatus.AWAITING_DROPOFF, jobId := some jobId })
        m0.machineId =
        some { m0 with status := MachineStatus.AWAITING_DROPOFF, jobId := some jobId } :=
      cacheGet_cachePut_self st.cache m0.machineId
        { m0 with status := MachineStatus.AWAITING_DROPOFF, jobId := some jobId }
    rw [← hpid]
    exact this

/-- Witness for C2: one `AVAILABLE` machine at the location gets reserved
with the requested job. -/
theorem C2_reserve_success_witness :
    ∃ u : MachineStateDocument,
      (handleRequestMachine ⟨[⟨"m1", "loc1", .AVAILABLE, none⟩], []⟩ "loc1" "job1").1 =
        { statusCode := .OK, machine := some u } ∧
      u.machineId = (⟨"m1", "loc1", .AVAILABLE, none⟩ : MachineStateDocument).machineId ∧
      u.status = MachineStatus.AWAITING_DROPOFF ∧
      u.jobId = some "job1" ∧
      getMachine (handleRequestMachine ⟨[⟨"m1", "loc1", .AVAILABLE, none⟩], []⟩
        "loc1" "job1").2.store
        (⟨"m1", "loc1", .AVAILABLE, none⟩ : MachineStateDocument).machineId = some u ∧
      cacheGet (handleRequestMachine ⟨[⟨"m1", "loc1", .AVAILABLE, none⟩], []⟩
        "loc1" "job1").2.cache
        (⟨"m1", "loc1", .AVAILABLE, none⟩ : MachineStateDocument).machineId = some u :=
  C2_reserve_success ⟨[⟨"m1", "loc1", .AVAILABLE, none⟩], []⟩ "loc1" "job1"
    ⟨"m1", "loc1", .AVAILABLE, none⟩ (by decide)

/-- C7: Reserve answers `NotFound` with no machine in exactly two cases —
no machine at the location is `AVAILABLE` (and then the Store and Cache are
untouched), or a machine was selected but the post-mutation re-read by its
id finds no record (reported as `NotFound`, not as a hard error). -/
theorem C7_reserve_notfound_cases (st : SysState) (locationId jobId : String) :
    ((listMachinesAtLocation st.store locationId).find?
        (fun m => m.status == MachineStatus.AVAILABLE) = none →
      handleRequestMachine st locationId jobId =
        ({ statusCode := .NOT_FOUND, machine := none }, st)) ∧
    ((handleRequestMachine st locationId jobId).1 =
        { statusCode := .NOT_FOUND, machine := none } ↔
      (listMachinesAtLocation st.store locationId).find?
        (fun m => m.status == MachineStatus.AVAILABLE) = none ∨
      ∃ a, (listMachinesAtLocation st.store locationId).find?
          (fun m => m.status == MachineStatus.AVAILABLE) = some a ∧
        getMachine (updateMachineJobId (updateMachineStatus st.store a.machineId
          MachineStatus.AWAITING_DROPOFF) a.machineId jobId) a.machineId = none) := by
  cases hf : (listMachinesAtLocation st.store locationId).find?
      (fun m => m.status == MachineStatus.AVAILABLE) with
  | none =>
    have hrun : handleRequestMachine st locationId jobId =
        ({ statusCode := .NOT_FOUND, machine := none }, st) := by
      unfold handleRequestMachine
      simp only [hf]
    refine ⟨fun _ => hrun, ?_⟩
    rw [hrun]
    simp
  | some a =>
    cases hre : getMachine (updateMachineJobId (updateMachineStatus st.store a.machineId
        MachineStatus.AWAITING_DROPOFF) a.machineId jobId) a.machineId with
    | some u =>
      have hrun : (handleRequestMachine st locationId jobId).1 =
          { statusCode := .OK, machine := some u } := by
        unfold handleRequestMachine
        simp only [hf, hre]
      refine ⟨fun h => Option.noConfusion h, ?_⟩
      rw [hrun]
      constructor
      · intro h
        exact absurd h (by simp)
      · rintro (h | ⟨a', ha', hre'⟩)
        · exact Option.noConfusion h
        · have haa : a = a' := by injection ha'
          subst haa
          exact absurd (hre.symm.trans hre') (by simp)
    | none =>
      have hrun : handleRequestMachine st locationId jobId =
          ({ statusCode := .NOT_FOUND, machine := none },
           { store := updateMachineJobId (updateMachineStatus st.store a.machineId
               MachineStatus.AWAITING_DROPOFF) a.machineId jobId,
             cache := st.cache }) := by
        unfold handleRequestMachine
        simp only [hf, hre]
      refine ⟨fun h => Option.noConfusion h, ?_⟩
      rw [hrun]
      exact ⟨fun _ => Or.inr ⟨a, rfl, hre⟩, fun _ => rfl⟩

/-- Witness for C7: an empty store has no `AVAILABLE` machine, so Reserve
answers `NotFound` and changes nothing. -/
theorem C7_reserve_notfound_cases_witness :
    handleRequestMachine ⟨[], []⟩ "loc1" "job1" =
      ({ statusCode := .NOT_FOUND, machine := none }, ⟨[], []⟩) :=
  (C7_reserve_notfound_cases ⟨[], []⟩ "loc1" "job1").1 (by decide)

/-- C8: with a valid non-empty token, `handle` routes
`POST /machine/request` to Reserve, `GET /machine/{id}` to Get and
`POST /machine/{id}/start` to Start (ids matching `[a-zA-Z0-9-]+`), and any
request matching none of these method/path shapes yields
`INTERNAL_SERVER_ERROR` with no machine and leaves the state untouched. -/
theorem C8_routing (caps : Caps) (st : SysState) (req : RequestModel)
    (h1 : req.token ≠ "")
    (h2 : caps.validateToken req.token = true) :
    (req.method = "POST" → req.path = "/machine/request" →
      handle caps st req =
        (.ok (handleRequestMachine st req.locationId req.jobId).1,
         (handleRequestMachine st req.locationId req.jobId).2)) ∧
    (∀ mid, req.method = "GET" → matchGetPath req.path = some mid →
      handle caps st req = (.ok (handleGetMachine st mid).1, (handleGetMachine st mid).2)) ∧
    (∀ mid, req.method = "POST" → matchStartPath req.path = some mid →
      handle caps st req =
        (.ok (handleStartMachine caps st mid).1, (handleStartMachine caps st mid).2)) ∧
    ((req.method = "POST" → req.path ≠ "/machine/request" ∧ matchStartPath req.path = none) →
     (req.method = "GET" → matchGetPath req.path = none) →
      handle caps st req =
        (.ok { statusCode := .INTERNAL_SERVER_ERROR, machine := none }, st)) := by
  have htok : checkToken caps req.token = .ok () := by
    unfold checkToken
    simp [h1, h2]
  refine ⟨?_, ?_, ?_, ?_⟩
  · intro hm hp
    unfold handle
    rw [htok]
    simp [hm, hp]
  · intro mid hm hp
    unfold handle
    rw [htok]
    simp [hm, hp]
  · intro mid hm hp
    have hpne : req.path ≠ "/machine/request" := by
      intro hcontra
      rw [hcontra] at hp
      exact Option.noConfusion ((show matchStartPath "/machine/request" = none by
        decide).symm.trans hp)
    unfold handle
    rw [htok]
    simp [hm, hpne, hp]
  · intro hpost hget
    unfold handle
    rw [htok]
    by_cases hmp : req.method = "POST"
    · obtain ⟨hpne, hsn⟩ := hpost hmp
      simp [hmp, hpne, hsn]
    · have e1 : (req.method == "POST") = false := by
        simp [hmp]
      by_cases hmg : req.method = "GET"
      · have hgn := hget hmg
        simp [hmg, hgn]
      · have e2 : (req.method == "GET") = false := by
          simp [hmg]
        simp [e1, e2]

/-- Witness for C8: an unmatched route (`DELETE /machine/x`) with a valid
token returns the internal-error response and no mutation. -/
theorem C8_routing_witness :
    handle ⟨fun _ => true, fun _ => true⟩ ⟨[], []⟩
        { token := "t", method := "DELETE", path := "/machine/x",
          locationId := "", jobId := "" } =
      (.ok { statusCode := .INTERNAL_SERVER_ERROR, machine := none }, ⟨[], []⟩) :=
  (C8_routing ⟨fun _ => true, fun _ => true⟩ ⟨[], []⟩
    { token := "t", method := "DELETE", path := "/machine/x",
      locationId := "", jobId := "" }
    (by decide) rfl).2.2.2
    (fun h => absurd h (by decide)) (fun h => absurd h (by decide))

/-- C10: under a well-formed cache, each operation leaves the Store record
and the Cache entry of every machine id other than its target unchanged —
the target being the selected `AVAILABLE` machine for Reserve and the
requested id for Get and Start. -/
theorem C10_frame_other_ids (caps : Caps) (st : SysState) (hwf : CacheWF st.cache) :
    (∀ locationId jobId other,
      (∀ a, (listMachinesAtLocation st.store locationId).find?
          (fun m => m.status == MachineStatus.AVAILABLE) = some a → other ≠ a.machineId) →
      getMachine (handleRequestMachine st locationId jobId).2.store other =
        getMachine st.store other ∧
      cacheGet (handleRequestMachine st locationId jobId).2.cache other =
        cacheGet st.cache other) ∧
    (∀ machineId other, other ≠ machineId →
      getMachine (handleGetMachine st machineId).2.store other = getMachine st.store other ∧
      cacheGet (handleGetMachine st machineId).2.cache other = cacheGet st.cache other) ∧
    (∀ machineId other, other ≠ machineId →
      getMachine (handleStartMachine caps st machineId).2.store other =
        getMachine st.store other ∧
      cacheGet (handleStartMachine caps st machineId).2.cache other =
        cacheGet st.cache other) := by
  refine ⟨?_, ?_, ?_⟩
  · intro locationId jobId other hother
    cases hf : (listMachinesAtLocation st.store locationId).find?
        (fun m => m.status == MachineStatus.AVAILABLE) with
    | none =>
      have hrun : handleRequestMachine st locationId jobId =
          ({ statusCode := .NOT_FOUND, machine := none }, st) := by
        unfold handleRequestMachine
        simp only [hf]
      rw [hrun]
      exact ⟨rfl, rfl⟩
    | some a =>
      have hne : other ≠ a.machineId := hother a hf
      have hs2 : getMachine (updateMachineJobId (updateMachineStatus st.store a.machineId
          MachineStatus.AWAITING_DROPOFF) a.machineId jobId) other =
          getMachine st.store other := by
        rw [getMachine_updateMachineJobId_ne _ _ _ _ hne,
          getMachine_updateMachineStatus_ne _ _ _ _ hne]
      cases hre : getMachine (updateMachineJobId (updateMachineStatus st.store a.machineId
          MachineStatus.AWAITING_DROPOFF) a.machineId jobId) a.machineId with
      | some u =>
        have hupid : u.machineId = a.machineId := getMachine_some_machineId hre
        have hrun : handleRequestMachine st locationId jobId =
            ({ statusCode := .OK, machine := some u },
             { store := updateMachineJobId (updateMachineStatus st.store a.machineId
                 MachineStatus.AWAITING_DROPOFF) a.machineId jobId,
               cache := cachePut st.cache u.machineId u }) := by
          unfold handleRequestMachine
          simp only [hf, hre]
        rw [hrun]
        refine ⟨hs2, ?_⟩
        rw [cacheGet_cachePut_ne _ _ _ _ (by rw [hupid]; exact hne)]
      | none =>
        have hrun : handleRequestMachine st locationId jobId =
            ({ statusCode := .NOT_FOUND, machine := none },
             { store := updateMachineJobId (updateMachineStatus st.store a.machineId
                 MachineStatus.AWAITING_DROPOFF) a.machineId jobId,
               cache := st.cache }) := by
          unfold handleRequestMachine
          simp only [hf, hre]
        rw [hrun]
        exact ⟨hs2, rfl⟩
  · intro machineId other hne
    cases hc : cacheGet st.cache machineId with
    | some m =>
      have hrun : handleGetMachine st machineId =
          ({ statusCode := .OK, machine := some m }, st) := by
        unfold handleGetMachine
        simp only [hc]
      rw [hrun]
      exact ⟨rfl, rfl⟩
    | none =>
      cases hs : getMachine st.store machineId with
      | some m =>
        have hmid : m.machineId = machineId := getMachine_some_machineId hs
        have hrun : handleGetMachine st machineId =
            ({ statusCode := .OK, machine := some m },
             { store := st.store, cache := cachePut st.cache m.machineId m }) := by
          unfold handleGetMachine
          simp only [hc, hs]
        rw [hrun]
        refine ⟨rfl, ?_⟩
        rw [cacheGet_cachePut_ne _ _ _ _ (by rw [hmid]; exact hne)]
      | none =>
        have hrun : handleGetMachine st machineId =
            ({ statusCode := .NOT_FOUND, machine := none }, st) := by
          unfold handleGetMachine
          simp only [hc, hs]
        rw [hrun]
        exact ⟨rfl, rfl⟩
  · intro machineId other hne
    cases hres : startResolve st machineId with
    | none =>
      have hrun : handleStartMachine caps st machineId =
          ({ statusCode := .NOT_FOUND, machine := none }, st) := by
        unfold handleStartMachine
        simp only [hres]
      rw [hrun]
      exact ⟨rfl, rfl⟩
    | some m =>
      have hmid : m.machineId = machineId := startResolve_machineId hwf hres
      have hne' : other ≠ m.machineId := by
        rw [hmid]
        exact hne
      by_cases hstat : m.status = MachineStatus.AWAITING_DROPOFF
      · cases hok : caps.startCycleOk m.machineId with
        | true =>
          have hs1 : getMachine (updateMachineStatus st.store m.machineId
              MachineStatus.RUNNING) other = getMachine st.store other :=
            getMachine_updateMachineStatus_ne _ _ _ _ hne'
          cases hre : getMachine (updateMachineStatus st.store m.machineId
              MachineStatus.RUNNING) m.machineId with
          | some u =>
            have hupid : u.machineId = m.machineId := getMachine_some_machineId hre
            have hrun : handleStartMachine caps st machineId =
                ({ statusCode := .OK, machine := some u },
                 { store := updateMachineStatus st.store m.machineId MachineStatus.RUNNING,
                   cache := cachePut st.cache u.machineId u }) := by
              unfold handleStartMachine
              rw [hres]
              simp only [hstat, bne_self_eq_false, Bool.false_eq_true, if_false, hok,
                if_true, hre]
            rw [hrun]
            refine ⟨hs1, ?_⟩
            rw [cacheGet_cachePut_ne _ _ _ _ (by rw [hupid]; exact hne')]
          | none =>
            have hrun : handleStartMachine caps st machineId =
                ({ statusCode := .NOT_FOUND, machine := none },
                 { store := updateMachineStatus st.store m.machineId MachineStatus.RUNNING,
                   cache := st.cache }) := by
              unfold handleStartMachine
              rw [hres]
              simp only [hstat, bne_self_eq_false, Bool.false_eq_true, if_false, hok,
                if_true, hre]
            rw [hrun]
            exact ⟨hs1, rfl⟩
        | false =>
          have hs1 : getMachine (updateMachineStatus st.store m.machineId
              MachineStatus.ERROR) other = getMachine st.store other :=
            getMachine_updateMachineStatus_ne _ _ _ _ hne'
          cases hre : getMachine (updateMachineStatus st.store m.machineId
              MachineStatus.ERROR) m.machineId with
          | some u =>
            have hupid : u.machineId = m.machineId := getMachine_some_machineId hre
            have hrun : handleStartMachine caps st machineId =
                ({ statusCode := .HARDWARE_ERROR, machine := some u },
                 { store := updateMachineStatus st.store m.machineId MachineStatus.ERROR,
                   cache := cachePut st.cache u.machineId u }) := by
              unfold handleStartMachine
              rw [hres]
              simp only [hstat, bne_self_eq_false, Bool.false_eq_true, if_false, hok,
                Bool.false_eq_true, if_false, hre]
            rw [hrun]
            refine ⟨hs1, ?_⟩
            rw [cacheGet_cachePut_ne _ _ _ _ (by rw [hupid]; exact hne')]
          | none =>
            have hrun : handleStartMachine caps st machineId =
                ({ statusCode := .NOT_FOUND, machine := none },
                 { store := updateMachineStatus st.store m.machineId MachineStatus.ERROR,
                   cache := st.cache }) := by
              unfold handleStartMachine
              rw [hres]
              simp only [hstat, bne_self_eq_false, Bool.false_eq_true, if_false, hok,
                Bool.false_eq_true, if_false, hre]
            rw [hrun]
            exact ⟨hs1, rfl⟩
      · have hrun : handleStartMachine caps st machineId =
            ({ statusCode := .BAD_REQUEST, machine := some m }, st) := by
          unfold handleStartMachine
          rw [hres]
          simp [hstat]
        rw [hrun]
        exact ⟨rfl, rfl⟩

/-- Witness for C10: a Get for `m1` (a cache miss filled from the Store)
leaves the Store record and the absent Cache entry of `m2` unchanged. -/
theorem C10_frame_other_ids_witness :
    getMachine (handleGetMachine
        ⟨[⟨"m1", "loc1", .AVAILABLE, none⟩, ⟨"m2", "loc1", .AVAILABLE, none⟩], []⟩
        "m1").2.store "m2" =
      getMachine [⟨"m1", "loc1", .AVAILABLE, none⟩, ⟨"m2", "loc1", .AVAILABLE, none⟩] "m2" ∧
    cacheGet (handleGetMachine
        ⟨[⟨"m1", "loc1", .AVAILABLE, none⟩, ⟨"m2", "loc1", .AVAILABLE, none⟩], []⟩
        "m1").2.cache "m2" =
      cacheGet [] "m2" :=
  (C10_frame_other_ids ⟨fun _ => true, fun _ => true⟩
    ⟨[⟨"m1", "loc1", .AVAILABLE, none⟩, ⟨"m2", "loc1", .AVAILABLE, none⟩], []⟩
    (fun _ _ h => Option.noConfusion h)).2.1 "m1" "m2" (by decide)

end MachineService
